import Mathlib

/-!
Verification of the `effect-playwright` adapter layer (a typed effectful
wrapper over a browser-automation engine) against its specification.

The development shallowly embeds the adapter's source:
* `src/errors.ts` — the error taxonomy (`PlaywrightError`, `wrapError`);
* `src/utils.ts` — the async-invocation helper `useHelper`;
* `src/playwright.ts` — the top-level constructors `launch`, `launchScoped`,
  `connectCDP` and their scope/finalizer behaviour;
* `src/page.ts` / `src/browser-context.ts` — `make`-style wrapper
  constructors, the `eventStream` facility, `exposeFunction`/`exposeEffect`;
* `src/common.ts` — content-object wrappers (request, response, dialog,
  file chooser, download) and their object-returning accessors.

Promises are embedded as their settled outcome (`PromiseResult`), effects as
their outcome (`EffResult`), the effect runtime's scope as an explicit list of
registered finalizers, and the push-stream subscription machinery as an
explicit state machine over listener-registration flags.
-/

namespace EffectPlaywright

/-! ## Error taxonomy (`src/errors.ts`) -/

/-- A JavaScript failure value.  The adapter's classifier inspects exactly
one exception class: the engine's `errors.TimeoutError`
(`error instanceof errors.TimeoutError`).  Any other `Error`, any thrown
non-`Error` value, and the effect library's `UnknownException` wrapper (an
`Error` produced by the single-argument `Effect.tryPromise`, carrying the
original cause inside it, and not an instance of the engine's
`TimeoutError`) are all causes as well. -/
inductive EngineCause where
  /-- An instance of the engine's `errors.TimeoutError` class. -/
  | timeoutError (message : String)
  /-- Any other JavaScript `Error` instance. -/
  | otherError (message : String)
  /-- A thrown value that is not an `Error` at all. -/
  | nonErrorValue (payload : String)
  /-- The effect library's `UnknownException` wrapping an original cause:
  the single-argument `Effect.tryPromise` rejects with this wrapper.  It is
  an `Error`, but never an instance of the engine's `TimeoutError`. -/
  | unknownException (cause : EngineCause)
deriving DecidableEq, Repr

/-- Whether `c instanceof errors.TimeoutError` holds for an embedded cause. -/
def EngineCause.isTimeoutInstance : EngineCause → Bool
  | .timeoutError _ => true
  | .otherError _ => false
  | .nonErrorValue _ => false
  | .unknownException _ => false

/-- Embedding of `PlaywrightErrorReason = "Timeout" | "Unknown"` (`src/errors.ts`). -/
inductive PlaywrightErrorReason where
  | Timeout
  | Unknown
deriving DecidableEq, Repr

/-- Embedding of `class PlaywrightError extends Data.TaggedError` with fields `reason` and `cause`
(`src/errors.ts`). -/
structure PlaywrightError where
  reason : PlaywrightErrorReason
  cause : EngineCause
deriving DecidableEq, Repr

/-- The function `wrapError` (`src/errors.ts`): classify a raw cause.  The only branch in
the whole error model: `error instanceof errors.TimeoutError` yields reason
`Timeout`, everything else yields `Unknown`; the cause is stored unchanged. -/
def wrapError (error : EngineCause) : PlaywrightError :=
  if error.isTimeoutInstance then
    { reason := .Timeout, cause := error }
  else
    { reason := .Unknown, cause := error }

/-! ## Promises and effect outcomes -/

/-- The settled outcome of a JavaScript promise: resolution with a value or
rejection with a cause. -/
inductive PromiseResult (A : Type u) where
  | resolved (a : A)
  | rejected (cause : EngineCause)
deriving DecidableEq, Repr

/-- The outcome of running an effect with typed error channel `E`. -/
inductive EffResult (E : Type v) (A : Type u) where
  | success (a : A)
  | failure (e : E)
deriving DecidableEq, Repr

/-- Embedding of the single-argument form `Effect.tryPromise(() => p)` — the
form `useHelper` uses.  In Effect 3.x this form does not deliver the raw
rejection cause on the error channel: it wraps every rejection cause in an
`UnknownException` first (the two-argument form
`Effect.tryPromise({ try, catch })`, used by `launch`/`connectCDP` in
`src/playwright.ts`, instead hands the raw cause to its `catch` handler). -/
def tryPromise {A : Type u} (p : PromiseResult A) : EffResult EngineCause A :=
  match p with
  | .resolved a => .success a
  | .rejected cause => .failure (.unknownException cause)

/-- Embedding of `Effect.mapError f`. -/
def mapError {E E' : Type v} {A : Type u} (f : E → E') :
    EffResult E A → EffResult E' A
  | .success a => .success a
  | .failure e => .failure (f e)

/-- The helper `useHelper` (`src/utils.ts`): given an opaque capability object `api`,
run a promise-returning operation on it and classify any rejection:
`Effect.tryPromise(() => userFunction(api)).pipe(Effect.mapError(wrapError))`.
The operation is embedded as the function from the capability object to the
settled outcome of the promise it returns. -/
def useHelper {Wrap : Type w} {A : Type u} (api : Wrap)
    (userFunction : Wrap → PromiseResult A) : EffResult PlaywrightError A :=
  mapError wrapError (tryPromise (userFunction api))

/-! ## Engine state, scoped effects and the top-level constructors
(`src/playwright.ts`)

The launched/connected browser process is modelled by an explicit state
record; the effect runtime's `Scope` is modelled by the list of registered
finalizers, which the runtime guarantees to run exactly once when the scope
exits, whatever the exit mode (normal completion, error, or external
interruption).  `Effect.addFinalizer` appends to that list; nothing else in
the adapter touches it. -/

/-- The engine-side state of one browser process.  `closeCalls` counts
invocations of the engine's `browser.close()`; `closeRejects` says whether
the engine's close promise rejects (close is still performed either way);
`connected` is the engine's "is connected" flag. -/
structure BrowserState where
  closeCalls : Nat
  closeRejects : Bool
  connected : Bool
deriving DecidableEq, Repr

/-- A state-passing effect over engine state `S` with typed error `E`. -/
def StEff (S : Type) (E : Type) (A : Type) := S → S × EffResult E A

/-- The engine's raw `browser.close()`: the close is performed (invocation
counted, connection dropped); the returned promise rejects when the engine's
close fails. -/
def rawBrowserClose (b : BrowserState) : BrowserState × PromiseResult Unit :=
  ({ b with closeCalls := b.closeCalls + 1, connected := false },
    if b.closeRejects then .rejected (.otherError "close failed") else .resolved ())

/-- The wrapper's `browser.close` field: `use((b) => b.close())`, i.e. the raw
close routed through the async-invocation helper (`src/browser.ts`). -/
def browserCloseEff : StEff BrowserState PlaywrightError Unit :=
  fun b =>
    let (b', p) := rawBrowserClose b
    (b', mapError wrapError (tryPromise p))

/-- Embedding of `Effect.ignore`: run the effect, discard both its success and its typed
failure. -/
def ignoreEff {S E E' A : Type} (eff : StEff S E A) : StEff S E' Unit :=
  fun s =>
    let (s', _) := eff s
    (s', .success ())

/-- A finalizer registered on a scope.  `Effect.addFinalizer` requires the
error channel to be `never`, so a registered finalizer can carry a typed
error only if the runtime's `never` is inhabited — `closeScope` still
collects any typed failures so that "the finalizer's failure is not
propagated" is an actual statement rather than a typing accident. -/
def Finalizer (S : Type) := StEff S PlaywrightError Unit

/-- A scope: the engine state together with the finalizers registered so far
(most recently registered first, as the runtime releases in reverse order of
acquisition). -/
structure ScopeState (S : Type) where
  state : S
  finalizers : List (Finalizer S)

/-- An effect that may register finalizers on the ambient scope. -/
def ScopedEff (S : Type) (E : Type) (A : Type) :=
  ScopeState S → ScopeState S × EffResult E A

/-- Embedding of `Effect.addFinalizer`. -/
def addFinalizer {S : Type} (fin : Finalizer S) : ScopedEff S PlaywrightError Unit :=
  fun sc => ({ sc with finalizers := fin :: sc.finalizers }, .success ())

/-- The engine's `browserType.launch(options)` promise: rejects when the
launch fails, otherwise resolves with the raw browser handle (the handle is
the state itself here; `PlaywrightBrowser.make` wraps it without touching
engine state). -/
def rawLaunch (launchRejects : Bool) : StEff BrowserState PlaywrightError Unit :=
  fun b =>
    if launchRejects then
      (b, .failure (wrapError (.otherError "launch failed")))
    else
      (b, .success ())

/-- The constructor `launch` (`src/playwright.ts`, lines 102–115): try the
engine launch via the two-argument
`Effect.tryPromise({ try: ..., catch: wrapError })` — whose `catch` handler
receives the raw rejection cause — and wrap the raw browser.  No finalizer
is registered. -/
def launch (launchRejects : Bool) : ScopedEff BrowserState PlaywrightError Unit :=
  fun sc =>
    let (b', r) := rawLaunch launchRejects sc.state
    ({ sc with state := b' }, r)

/-- The constructor `launchScoped` (`src/playwright.ts`, lines 125–134): run `launch`, then
`yield* Effect.addFinalizer(() => browser.close.pipe(Effect.ignore))`. -/
def launchScoped (launchRejects : Bool) : ScopedEff BrowserState PlaywrightError Unit :=
  fun sc =>
    match launch launchRejects sc with
    | (sc', .failure e) => (sc', .failure e)
    | (sc', .success _) => addFinalizer (ignoreEff browserCloseEff) sc'

/-- The engine's `chromium.connectOverCDP(cdpUrl, options)` promise. -/
def rawConnectOverCDP (connectRejects : Bool) : StEff BrowserState PlaywrightError Unit :=
  fun b =>
    if connectRejects then
      (b, .failure (wrapError (.otherError "connect failed")))
    else
      (b, .success ())

/-- The constructor `connectCDP` (`src/playwright.ts`, lines 135–145): try the CDP connect,
classify a rejection, wrap the raw browser.  No finalizer is registered. -/
def connectCDP (connectRejects : Bool) : ScopedEff BrowserState PlaywrightError Unit :=
  fun sc =>
    let (b', r) := rawConnectOverCDP connectRejects sc.state
    ({ sc with state := b' }, r)

/-- How the enclosing scope exits: normal completion of the body, a failure
inside the body, or external cancellation of the running fiber. -/
inductive ExitMode where
  | success
  | failure
  | interrupted
deriving DecidableEq, Repr

/-- Closing a scope: run every registered finalizer exactly once, in order,
collecting any typed failures a finalizer produces (the runtime would surface
those; a finalizer built with `Effect.ignore` never produces one). -/
def closeScope {S : Type} : List (Finalizer S) → S → S × List PlaywrightError
  | [], s => (s, [])
  | fin :: rest, s =>
      let (s', r) := fin s
      let (s'', errs) := closeScope rest s'
      match r with
      | .failure e => (s'', e :: errs)
      | .success _ => (s'', errs)

/-- Run a scoped effect inside a fresh scope and close the scope on exit.
The effect runtime guarantees release on every exit path, so the finalizers
run regardless of the body's outcome and of the exit mode; the returned
components are the final engine state, the typed failures escaping from
finalizers, and the body's own outcome. -/
def runScoped {S E A : Type} (eff : ScopedEff S E A) (s₀ : S) (_exit : ExitMode) :
    S × List PlaywrightError × EffResult E A :=
  let (sc, r) := eff { state := s₀, finalizers := [] }
  let (s', errs) := closeScope sc.finalizers sc.state
  (s', errs, r)

/-! ## Event streams (`src/page.ts` 729–748, `src/browser-context.ts` 147–166)

Subscribing to `eventStream(eventName)` registers a raw listener
(`owner.on(eventName, emit.single)`) and a close listener
(`owner.once("close", emit.end)`); releasing the subscription runs
`owner.off(eventName, emit.single); owner.off("close", emit.end)`.  Each raw
payload is mapped through the owner's static `eventMappings` table by
`Stream.map` before reaching the subscriber.  A subscription is embedded as
the registration state of its two listeners plus the mapped events delivered
so far. -/

/-- The names of the events a page emits (`PageEvents`, `src/page.ts`). -/
inductive PageEventName where
  | close | console | crash | dialog | domcontentloaded | download | filechooser
  | frameattached | framedetached | framenavigated | load | pageerror | popup
  | request | requestfailed | requestfinished | response | websocket | worker
deriving DecidableEq, Repr

/-- The names of the events a browser context emits
(`BrowserContextEvents`, `src/browser-context.ts`). -/
inductive BrowserContextEventName where
  | backgroundpage | close | console | dialog | page | request | requestfailed
  | requestfinished | response | serviceworker | weberror
deriving DecidableEq, Repr

/-- A raw engine object arriving as an event payload, identified by the kind
of engine object and an identity (distinct engine objects have distinct
identities). -/
inductive RawPayload where
  | page (id : Nat)
  | consoleMessage (id : Nat)
  | dialogObj (id : Nat)
  | downloadObj (id : Nat)
  | fileChooserObj (id : Nat)
  | frameObj (id : Nat)
  | jsError (id : Nat)
  | requestObj (id : Nat)
  | responseObj (id : Nat)
  | webSocketObj (id : Nat)
  | workerObj (id : Nat)
  | browserContextObj (id : Nat)
  | webErrorObj (id : Nat)
deriving DecidableEq, Repr

/-- The value a subscriber receives after the per-event-name transform: for
most event names a freshly constructed wrapped handle (`SomeWrapper.make(raw)`),
for the `identity`-mapped names the raw payload passed through unchanged. -/
inductive MappedEvent where
  /-- Result of `PlaywrightPage.make(raw)`. -/
  | wrappedPage (raw : RawPayload)
  /-- Result of `PlaywrightDialog.make(raw)`. -/
  | wrappedDialog (raw : RawPayload)
  /-- Result of `PlaywrightDownload.make(raw)`. -/
  | wrappedDownload (raw : RawPayload)
  /-- Result of `PlaywrightFileChooser.make(raw)`. -/
  | wrappedFileChooser (raw : RawPayload)
  /-- Result of `PlaywrightFrame.make(raw)`. -/
  | wrappedFrame (raw : RawPayload)
  /-- Result of `PlaywrightRequest.make(raw)`. -/
  | wrappedRequest (raw : RawPayload)
  /-- Result of `PlaywrightResponse.make(raw)`. -/
  | wrappedResponse (raw : RawPayload)
  /-- Result of `PlaywrightWorker.make(raw)`. -/
  | wrappedWorker (raw : RawPayload)
  /-- Result of `PlaywrightBrowserContext.make(raw)`. -/
  | wrappedBrowserContext (raw : RawPayload)
  /-- An `identity`-mapped payload (console message, page error, websocket,
  web error): no handle is constructed. -/
  | passthrough (raw : RawPayload)
deriving DecidableEq, Repr

/-- Whether the transform constructed a wrapped handle for this delivery
(every table entry except the `identity` ones). -/
def MappedEvent.isConstructedHandle : MappedEvent → Bool
  | .passthrough _ => false
  | _ => true

/-- The page's static `eventMappings` table (`src/page.ts`, lines 62–83). -/
def pageEventMappings : PageEventName → RawPayload → MappedEvent
  | .close, raw => .wrappedPage raw
  | .console, raw => .passthrough raw
  | .crash, raw => .wrappedPage raw
  | .dialog, raw => .wrappedDialog raw
  | .domcontentloaded, raw => .wrappedPage raw
  | .download, raw => .wrappedDownload raw
  | .filechooser, raw => .wrappedFileChooser raw
  | .frameattached, raw => .wrappedFrame raw
  | .framedetached, raw => .wrappedFrame raw
  | .framenavigated, raw => .wrappedFrame raw
  | .load, raw => .wrappedPage raw
  | .pageerror, raw => .passthrough raw
  | .popup, raw => .wrappedPage raw
  | .request, raw => .wrappedRequest raw
  | .requestfailed, raw => .wrappedRequest raw
  | .requestfinished, raw => .wrappedRequest raw
  | .response, raw => .wrappedResponse raw
  | .websocket, raw => .passthrough raw
  | .worker, raw => .wrappedWorker raw

/-- The browser context's static `eventMappings` table
(`src/browser-context.ts`, lines 38–50). -/
def contextEventMappings : BrowserContextEventName → RawPayload → MappedEvent
  | .backgroundpage, raw => .wrappedPage raw
  | .close, raw => .wrappedBrowserContext raw
  | .console, raw => .passthrough raw
  | .dialog, raw => .wrappedDialog raw
  | .page, raw => .wrappedPage raw
  | .request, raw => .wrappedRequest raw
  | .requestfailed, raw => .wrappedRequest raw
  | .requestfinished, raw => .wrappedRequest raw
  | .response, raw => .wrappedResponse raw
  | .serviceworker, raw => .wrappedWorker raw
  | .weberror, raw => .passthrough raw

/-- What an owner kind contributes to `eventStream`: which event name key is
the owner's `close` event and the owner's transform table. -/
structure EventStreamSpec (N : Type) where
  closeName : N
  mapping : N → RawPayload → MappedEvent

/-- The page instantiation of `eventStream`. -/
def pageEventStreamSpec : EventStreamSpec PageEventName :=
  { closeName := .close, mapping := pageEventMappings }

/-- The browser-context instantiation of `eventStream`. -/
def contextEventStreamSpec : EventStreamSpec BrowserContextEventName :=
  { closeName := .close, mapping := contextEventMappings }

/-- One subscription to `eventStream(eventName)`: whether the raw listener
`(eventName, emit.single)` is currently registered, whether the close
listener `("close", emit.end)` is currently registered, whether `emit.end`
has run (the stream is terminated), and the mapped events delivered so far. -/
structure Subscription (N : Type) where
  eventName : N
  singleOn : Bool
  endOn : Bool
  ended : Bool
  received : List MappedEvent
deriving DecidableEq, Repr

/-- Subscribing: the acquisition effect registers the raw listener and the
close listener (`Effect.sync(() => { owner.on(event, emit.single);
owner.once("close", emit.end) })`); nothing has been delivered yet. -/
def subscribe {N : Type} (k : N) : Subscription N :=
  { eventName := k, singleOn := true, endOn := true, ended := false, received := [] }

/-- Cancelling the stream from the consumer side: the subscription's release
runs, deregistering both listeners (`owner.off(event, emit.single);
owner.off("close", emit.end)`); the stream is over. -/
def cancelSub {N : Type} (s : Subscription N) : Subscription N :=
  { s with singleOn := false, endOn := false, ended := true }

/-- The engine emits event `j` with payload `p`; the owner's listeners fire
in registration order.  First the raw listener, when still registered and
matching and the stream not yet terminated, pushes the transformed payload
(`Stream.map` applies the owner's table entry for the subscribed name).
Then, when `j` is the owner's close event and the once-registered close
listener is still present, `emit.end` terminates the stream and the
subscription's release deregisters both listeners. -/
def deliver {N : Type} [DecidableEq N] (spec : EventStreamSpec N)
    (s : Subscription N) (j : N) (p : RawPayload) : Subscription N :=
  let delivered :=
    if s.singleOn = true ∧ j = s.eventName ∧ s.ended = false then
      s.received ++ [spec.mapping s.eventName p]
    else s.received
  if j = spec.closeName ∧ s.endOn = true then
    { s with received := delivered, singleOn := false, endOn := false, ended := true }
  else
    { s with received := delivered }

/-- Process a sequence of engine emissions against one subscription. -/
def processEvents {N : Type} [DecidableEq N] (spec : EventStreamSpec N)
    (s : Subscription N) (events : List (N × RawPayload)) : Subscription N :=
  events.foldl (fun st ev => deliver spec st ev.1 ev.2) s

/-- The engine emits one event to every concurrent subscription: each
subscription's raw listener receives the occurrence independently. -/
def broadcast {N : Type} [DecidableEq N] (spec : EventStreamSpec N)
    (subs : List (Subscription N)) (j : N) (p : RawPayload) : List (Subscription N) :=
  subs.map (fun s => deliver spec s j p)

/-- The number of wrapped handles constructed among a list of delivered
events. -/
def constructedHandles (l : List MappedEvent) : Nat :=
  (l.filter MappedEvent.isConstructedHandle).length

/-- The total number of wrapped handles constructed across all concurrent
subscriptions. -/
def totalConstructedHandles {N : Type} (subs : List (Subscription N)) : Nat :=
  (subs.map (fun s => constructedHandles s.received)).sum

/-- The outcome of consuming an event stream to completion: the stream ends
having emitted a list of values, or fails on its typed error channel. -/
inductive StreamOutcome (E : Type) (A : Type) where
  | ended (emitted : List A)
  | failed (e : E)
deriving DecidableEq, Repr

/-- Whether the stream outcome is a typed failure. -/
def StreamOutcome.isFailure {E A : Type} : StreamOutcome E A → Bool
  | .ended _ => false
  | .failed _ => true

/-- The acquisition step of a subscription:
`Effect.sync(() => { owner.on(event, emit.single); owner.once("close", emit.end) })`.
An `Effect.sync` thunk is a plain synchronous effect and cannot produce a
typed failure, so acquisition always succeeds; the error channel appears in
the type only so that the pipeline's (non-)use of it is expressible. -/
def eventStreamAcquire {N : Type} (k : N) : EffResult PlaywrightError (Subscription N) :=
  .success (subscribe k)

/-- Run one subscription to `eventStream(k)` against a trace of engine
emissions and observe its outcome: acquire (synchronously), deliver the
trace through the per-event transform, terminate.  A typed failure could
only arise from the acquisition step. -/
def runEventStream {N : Type} [DecidableEq N] (spec : EventStreamSpec N)
    (k : N) (events : List (N × RawPayload)) : StreamOutcome PlaywrightError MappedEvent :=
  match eventStreamAcquire k with
  | .failure e => .failed e
  | .success s => .ended (processEvents spec s events).received

/-- The page wrapper's `eventStream` run to completion. -/
def runPageEventStream (k : PageEventName)
    (events : List (PageEventName × RawPayload)) : StreamOutcome PlaywrightError MappedEvent :=
  runEventStream pageEventStreamSpec k events

/-- The browser-context wrapper's `eventStream` run to completion. -/
def runContextEventStream (k : BrowserContextEventName)
    (events : List (BrowserContextEventName × RawPayload)) : StreamOutcome PlaywrightError MappedEvent :=
  runEventStream contextEventStreamSpec k events

/-! ## Content-object wrappers and their object-returning accessors
(`src/common.ts`)

Each wrapper is produced by a `make`-style constructor from the raw engine
object.  The accessors under scrutiny are the ones whose result is itself an
engine object: `request.frame`, `response.request`, `dialog.page`,
`fileChooser.element`, `download.page`. -/

/-- A raw engine `Frame` object. -/
structure RawFrame where
  id : Nat
deriving DecidableEq, Repr

/-- A raw engine `ElementHandle` object. -/
structure RawElementHandle where
  id : Nat
deriving DecidableEq, Repr

/-- A raw engine `Page` object (identity only; behaviour is modelled
separately by `RawPageApi`). -/
structure RawPageObj where
  id : Nat
deriving DecidableEq, Repr

/-- A raw engine `Request` object and the frame that issued it
(`request.frame()`). -/
structure RawRequestObj where
  id : Nat
  frameRef : RawFrame
deriving DecidableEq, Repr

/-- A raw engine `Response` object and its originating request
(`response.request()`). -/
structure RawResponseObj where
  id : Nat
  requestRef : RawRequestObj
deriving DecidableEq, Repr

/-- A raw engine `Dialog` object; `dialog.page()` is nullable. -/
structure RawDialogObj where
  id : Nat
  pageRef : Option RawPageObj
deriving DecidableEq, Repr

/-- A raw engine `FileChooser` object: the input element that opened it
(`fileChooser.element()`), its page, and its `multiple` flag. -/
structure RawFileChooserObj where
  id : Nat
  elementRef : RawElementHandle
  pageRef : RawPageObj
  multiple : Bool
deriving DecidableEq, Repr

/-- A raw engine `Download` object and its page (`download.page()`). -/
structure RawDownloadObj where
  id : Nat
  pageRef : RawPageObj
deriving DecidableEq, Repr

/-- The handle produced by `PlaywrightFrame.make`. -/
structure PlaywrightFrameHandle where
  raw : RawFrame
deriving DecidableEq, Repr

/-- The handle produced by `PlaywrightPage.make`. -/
structure PlaywrightPageHandle where
  raw : RawPageObj
deriving DecidableEq, Repr

/-- The handle produced by `PlaywrightRequest.make`. -/
structure PlaywrightRequestHandle where
  raw : RawRequestObj
deriving DecidableEq, Repr

/-- The `frame` field of `PlaywrightRequest.make` (`src/common.ts`, line 138):
`Effect.sync(() => PlaywrightFrame.make(request.frame()))` — an unfailing
effect yielding the wrapped frame. -/
def requestFrame (request : RawRequestObj) : PlaywrightFrameHandle :=
  { raw := request.frameRef }

/-- The `request` field of `PlaywrightResponse.make` (`src/common.ts`,
line 242): `() => PlaywrightRequest.make(response.request())`. -/
def responseRequest (response : RawResponseObj) : PlaywrightRequestHandle :=
  { raw := response.requestRef }

/-- The `page` field of `PlaywrightDialog.make` (`src/common.ts`,
lines 299–302): `Option.fromNullable(dialog.page()).pipe(Option.map(PlaywrightPage.make))`. -/
def dialogPage (dialog : RawDialogObj) : Option PlaywrightPageHandle :=
  dialog.pageRef.map (fun p => { raw := p })

/-- The `element` field of `PlaywrightFileChooser.make` (`src/common.ts`,
line 327): `() => fileChooser.element()` — the raw engine `ElementHandle` is
returned as-is; no wrapper type for element handles exists in the adapter. -/
def fileChooserElement (fileChooser : RawFileChooserObj) : RawElementHandle :=
  fileChooser.elementRef

/-- The `page` field of `PlaywrightDownload.make` (`src/common.ts`,
line 379): `() => PlaywrightPage.make(download.page())`. -/
def downloadPage (download : RawDownloadObj) : PlaywrightPageHandle :=
  { raw := download.pageRef }

/-- A uniform view of what an object-returning accessor hands to the caller:
a wrapped handle of some kind, or a raw engine object. -/
inductive HandleResult where
  | wrappedFrame (h : PlaywrightFrameHandle)
  | wrappedRequest (h : PlaywrightRequestHandle)
  | wrappedPage (h : PlaywrightPageHandle)
  | rawElement (e : RawElementHandle)
deriving DecidableEq, Repr

/-- Whether the accessor's result is a wrapped handle rather than a raw
engine object. -/
def HandleResult.isWrapped : HandleResult → Bool
  | .rawElement _ => false
  | _ => true

/-- Classification of `request.frame`'s result. -/
def requestFrameResult (request : RawRequestObj) : HandleResult :=
  .wrappedFrame (requestFrame request)

/-- Classification of `response.request`'s result. -/
def responseRequestResult (response : RawResponseObj) : HandleResult :=
  .wrappedRequest (responseRequest response)

/-- Classification of `dialog.page`'s result (absent when the engine returns
null). -/
def dialogPageResult (dialog : RawDialogObj) : Option HandleResult :=
  (dialogPage dialog).map .wrappedPage

/-- Classification of `fileChooser.element`'s result. -/
def fileChooserElementResult (fileChooser : RawFileChooserObj) : HandleResult :=
  .rawElement (fileChooserElement fileChooser)

/-- Classification of `download.page`'s result. -/
def downloadPageResult (download : RawDownloadObj) : HandleResult :=
  .wrappedPage (downloadPage download)

/-! ## The page wrapper's asynchronous operations and the escape hatch
(`src/page.ts` 648–751)

A raw page is embedded by the settled outcome each of its promise-returning
methods would produce in the current engine state.  `PlaywrightPage.make`
builds every asynchronous wrapper method by routing the corresponding raw
method through `use = useHelper(page)`; the `use` field itself is the escape
hatch. -/

/-- The promise-returning surface of a raw engine `Page` relevant here, in
its current engine state: each method is embedded as the settled outcome of
the promise it returns.  `goto`, like `reload`, resolves with a nullable
`Response`, embedded as an optional response identity. -/
structure RawPageApi where
  goto : String → PromiseResult (Option Nat)
  title : PromiseResult String
  content : PromiseResult String
  reload : PromiseResult (Option Nat)
  click : String → PromiseResult Unit

/-- The escape hatch on the page wrapper (`use` field of
`PlaywrightPage.make`): `useHelper(page)` applied to a caller-supplied
promise-returning function on the raw page. -/
def pageUse {A : Type} (page : RawPageApi) (f : RawPageApi → PromiseResult A) :
    EffResult PlaywrightError A :=
  useHelper page f

/-- The wrapper's `goto` (`src/page.ts`, line 656):
`(url, options) => use((p) => p.goto(url, options))`. -/
def pageGoto (page : RawPageApi) (url : String) : EffResult PlaywrightError (Option Nat) :=
  useHelper page (fun p => p.goto url)

/-- The wrapper's `title` (`src/page.ts`, line 660): `use((p) => p.title())`. -/
def pageTitle (page : RawPageApi) : EffResult PlaywrightError String :=
  useHelper page (fun p => p.title)

/-- The wrapper's `content` (`src/page.ts`, line 661): `use((p) => p.content())`. -/
def pageContent (page : RawPageApi) : EffResult PlaywrightError String :=
  useHelper page (fun p => p.content)

/-- The wrapper's `reload` (`src/page.ts`, line 711): `use((p) => p.reload())`. -/
def pageReload (page : RawPageApi) : EffResult PlaywrightError (Option Nat) :=
  useHelper page (fun p => p.reload)

/-- The wrapper's deprecated `click` (`src/page.ts`, line 727):
`(selector, options) => use((p) => p.click(selector, options))`. -/
def pageClick (page : RawPageApi) (selector : String) : EffResult PlaywrightError Unit :=
  useHelper page (fun p => p.click selector)

/-- Observable equivalence of two effect outcomes: equal success values, or
errors with the same classification (`reason`) and the same underlying
cause. -/
def obsEquiv {A : Type} : EffResult PlaywrightError A → EffResult PlaywrightError A → Prop
  | .success a, .success b => a = b
  | .failure e, .failure e' => e.reason = e'.reason ∧ e.cause = e'.cause
  | _, _ => False

/-! ## Exposed host-side callables (`src/page.ts` 667–687)

`exposeFunction` runs `Effect.runtime<R>()` once at registration time, turns
the captured runtime into `runPromise`, and registers an engine-side binding
whose callback closes over that single `runPromise`; the ambient runtime at
call time is never consulted.  `exposeEffect` is the same with a fixed
effect and no arguments. -/

/-- The runtime captured by `Effect.runtime<R>()`: the execution context it
carries and whether that context's requirements are still satisfiable at the
moment the runtime is actually used (they may cease to be once, e.g., a
scoped service inside the context has been released). -/
structure CapturedRuntime (R : Type) where
  context : R
  satisfiable : Bool

/-- Embedding of `Runtime.runPromise(rt)` applied to an effect needing `R`:
when the captured context's requirements are satisfiable, the effect runs
under the captured context; otherwise the promise rejects with a
(non-timeout) runtime failure. -/
def runPromiseWith {R A : Type} (rt : CapturedRuntime R)
    (eff : R → PromiseResult A) : PromiseResult A :=
  if rt.satisfiable then eff rt.context
  else .rejected (.otherError "captured runtime requirements unavailable")

/-- The engine-side binding installed by `page.exposeFunction(name, cb)`:
every in-page invocation calls `cb` with the serialized arguments. -/
structure ExposedBinding (Args : Type) (A : Type) where
  callbackFn : Args → PromiseResult A

/-- The wrapper's `exposeFunction` (`src/page.ts`, lines 667–680):
`Effect.runtime<R>()` captures the ambient runtime once, the registration
call `use((p) => p.exposeFunction(name, (...args) => runPromise(effectFn(...args))))`
goes through the async-invocation helper, and the installed callback closes
over the single captured `runPromise`.  `registration` is the settled
outcome of the engine's `exposeFunction` promise. -/
def exposeFunction {R Args A : Type} (ambient : CapturedRuntime R)
    (registration : PromiseResult Unit)
    (effectFn : Args → R → PromiseResult A) :
    EffResult PlaywrightError (ExposedBinding Args A) :=
  match mapError wrapError (tryPromise registration) with
  | .failure e => .failure e
  | .success _ =>
      .success { callbackFn := fun args => runPromiseWith ambient (effectFn args) }

/-- The wrapper's `exposeEffect` (`src/page.ts`, lines 681–687): identical to
`exposeFunction` with a fixed effect and no arguments:
`use((p) => p.exposeFunction(name, () => runPromise(effectFn)))`. -/
def exposeEffect {R A : Type} (ambient : CapturedRuntime R)
    (registration : PromiseResult Unit)
    (effectFn : R → PromiseResult A) :
    EffResult PlaywrightError (ExposedBinding Unit A) :=
  match mapError wrapError (tryPromise registration) with
  | .failure e => .failure e
  | .success _ =>
      .success { callbackFn := fun _ => runPromiseWith ambient effectFn }

/-- An in-page invocation of the exposed function at a later time: the
engine calls the installed binding with the arguments.  The ambient runtime
current at call time is passed here only to record that the binding's
callback never consults it — the callback is a closure over the
registration-time `runPromise`. -/
def invokeExposed {R Args A : Type} (binding : ExposedBinding Args A)
    (_ambientAtCall : CapturedRuntime R) (args : Args) : PromiseResult A :=
  binding.callbackFn args

/-! ## Helper lemmas about the subscription machinery -/

/-- Once both listeners are deregistered, a subscription is inert: further
engine emissions change nothing. -/
theorem deliver_of_released {N : Type} [DecidableEq N] (spec : EventStreamSpec N)
    (s : Subscription N) (j : N) (p : RawPayload)
    (h1 : s.singleOn = false) (h2 : s.endOn = false) :
    deliver spec s j p = s := by
  cases s with
  | mk ev so eo en rec =>
      simp only [Subscription.singleOn] at h1
      simp only [Subscription.endOn] at h2
      subst h1
      subst h2
      simp [deliver]

/-- A released subscription stays fixed under any trace of emissions. -/
theorem processEvents_of_released {N : Type} [DecidableEq N] (spec : EventStreamSpec N)
    (s : Subscription N) (events : List (N × RawPayload))
    (h1 : s.singleOn = false) (h2 : s.endOn = false) :
    processEvents spec s events = s := by
  induction events with
  | nil => rfl
  | cons ev rest ih =>
      show processEvents spec (deliver spec s ev.1 ev.2) rest = s
      rw [deliver_of_released spec s ev.1 ev.2 h1 h2, ih]

/-- Invariant of the subscription machine: the close listener is only ever
removed together with the raw listener, at stream termination. -/
def SubscriptionInv {N : Type} (s : Subscription N) : Prop :=
  s.endOn = false → s.singleOn = false ∧ s.ended = true

theorem subscribe_inv {N : Type} (k : N) : SubscriptionInv (subscribe k) := by
  intro h
  simp [subscribe] at h

theorem deliver_inv {N : Type} [DecidableEq N] (spec : EventStreamSpec N)
    (s : Subscription N) (j : N) (p : RawPayload)
    (h : SubscriptionInv s) : SubscriptionInv (deliver spec s j p) := by
  unfold deliver
  by_cases hc : j = spec.closeName ∧ s.endOn = true
  · simp only [hc, if_pos, and_self]
    intro _
    constructor <;> rfl
  · simp only [hc, if_neg, not_false_iff]
    intro hend
    exact h hend

theorem processEvents_inv {N : Type} [DecidableEq N] (spec : EventStreamSpec N)
    (s : Subscription N) (events : List (N × RawPayload))
    (h : SubscriptionInv s) : SubscriptionInv (processEvents spec s events) := by
  induction events generalizing s with
  | nil => exact h
  | cons ev rest ih =>
      exact ih (deliver spec s ev.1 ev.2) (deliver_inv spec s ev.1 ev.2 h)

/-- Emitting the owner's close event against any subscription satisfying the
machine invariant terminates the stream and deregisters both listeners. -/
theorem close_terminates {N : Type} [DecidableEq N] (spec : EventStreamSpec N)
    (s : Subscription N) (p : RawPayload) (h : SubscriptionInv s) :
    (deliver spec s spec.closeName p).singleOn = false ∧
    (deliver spec s spec.closeName p).endOn = false ∧
    (deliver spec s spec.closeName p).ended = true := by
  unfold deliver
  by_cases he : s.endOn = true
  · simp [he]
  · have he' : s.endOn = false := by
      cases hval : s.endOn
      · rfl
      · exact absurd hval he
    obtain ⟨hs, hd⟩ := h he'
    simp [he', hs, hd]

/-- Outcome equality is reflexive for observable equivalence. -/
theorem obsEquiv_rfl {A : Type} (r : EffResult PlaywrightError A) : obsEquiv r r := by
  cases r with
  | success a => exact rfl
  | failure e => exact ⟨rfl, rfl⟩

/-! ## Claim theorems -/

/-- C1: For every scoped acquisition of a browser via `launchScoped`, the
browser's close operation is invoked exactly once by the time the enclosing
scope finishes, on every exit path (normal completion, error, external
cancellation — the `exit` argument ranges over all three), and a failure of
the close operation itself (any `closeRejects` flag in the initial state) is
ignored rather than propagated: no typed error escapes from the scope's
finalizers. -/
theorem launchScoped_closes_exactly_once (b : BrowserState) (exit : ExitMode) :
    (runScoped (launchScoped false) b exit).1.closeCalls = b.closeCalls + 1 ∧
    (runScoped (launchScoped false) b exit).2.1 = [] := by
  constructor <;>
    simp [runScoped, launchScoped, launch, rawLaunch, addFinalizer, closeScope,
      ignoreEff, browserCloseEff, rawBrowserClose, mapError, tryPromise]

/-- C2: For every cause `c`, `wrapError c` has reason exactly `Timeout` when
`c` is an instance of the engine's timeout exception type and exactly
`Unknown` for every other `c`, and its `cause` field is always the original
cause itself. -/
theorem wrapError_classification (c : EngineCause) :
    (wrapError c).reason =
      (if c.isTimeoutInstance then PlaywrightErrorReason.Timeout
       else PlaywrightErrorReason.Unknown) ∧
    (wrapError c).cause = c := by
  cases c <;> simp [wrapError, EngineCause.isTimeoutInstance]

/-- C3 counterexample: at a concrete capability object whose operation
rejects with the engine's timeout exception, `useHelper` does not fail with
`wrapError` of that cause — the single-argument `Effect.tryPromise` has
already wrapped the cause in an `UnknownException`, so the error is
`wrapError` of the wrapper: reason `Unknown` (not `Timeout`) and a cause
that is the wrapper, not the original rejection cause. -/
theorem useHelper_route_cex :
    useHelper () (fun _ => (PromiseResult.rejected (.timeoutError "t") : PromiseResult Nat)) ≠
      .failure (wrapError (.timeoutError "t")) ∧
    useHelper () (fun _ => (PromiseResult.rejected (.timeoutError "t") : PromiseResult Nat)) =
      .failure { reason := .Unknown, cause := .unknownException (.timeoutError "t") } := by
  constructor
  · decide
  · rfl

/-- C3 (amended): For every capability object and every promise-returning
function `f`, the effect produced by `useHelper api f` invokes `f api` when
run; if the promise resolves with value `a` the effect succeeds with `a`;
if the promise rejects with cause `e`, the single-argument
`Effect.tryPromise` wraps `e` in an `UnknownException` before
`Effect.mapError(wrapError)` runs, so the effect fails with `wrapError`
applied to the wrapper: the reason is always `Unknown` — even when `e` is
the engine's timeout exception — and the original cause survives only
inside the `UnknownException`, not as the error's own `cause` field. -/
theorem useHelper_route_amended (C A : Type) (api : C) (f : C → PromiseResult A) :
    (∀ a, f api = .resolved a → useHelper api f = .success a) ∧
    (∀ e, f api = .rejected e →
      useHelper api f = .failure (wrapError (.unknownException e)) ∧
      (wrapError (.unknownException e)).reason = .Unknown ∧
      (wrapError (.unknownException e)).cause = .unknownException e) := by
  constructor
  · intro a h
    simp [useHelper, tryPromise, mapError, h]
  · intro e h
    refine ⟨?_, rfl, rfl⟩
    simp [useHelper, tryPromise, mapError, h]

/-- Witness for C3 (amended) at a concrete capability object and concrete
resolving and rejecting operations (the rejecting one with the engine's
timeout exception). -/
theorem useHelper_route_amended_witness :
    useHelper () (fun _ => PromiseResult.resolved (5 : Nat)) = .success 5 ∧
    (useHelper () (fun _ => (PromiseResult.rejected (.timeoutError "t") : PromiseResult Nat)) =
        .failure (wrapError (.unknownException (.timeoutError "t"))) ∧
      (wrapError (.unknownException (.timeoutError "t"))).reason = .Unknown ∧
      (wrapError (.unknownException (.timeoutError "t"))).cause =
        .unknownException (.timeoutError "t")) :=
  ⟨(useHelper_route_amended Unit Nat () (fun _ => PromiseResult.resolved 5)).1 5 rfl,
   (useHelper_route_amended Unit Nat () (fun _ => PromiseResult.rejected (.timeoutError "t"))).2
     (.timeoutError "t") rfl⟩

/-- C4: On both the page and browser-context wrappers, subscribing to
`eventStream k` registers a raw listener for `k` and a second listener for
the owner's `close` event; after the owner emits `close` the stream is
terminated, both listeners are deregistered, and no further engine emissions
change the subscription (in particular nothing further is emitted); and
cancellation of the stream deregisters both listeners. -/
theorem eventStream_registration_close_cancel
    (k : PageEventName) (events more : List (PageEventName × RawPayload)) (p : RawPayload)
    (k' : BrowserContextEventName)
    (events' more' : List (BrowserContextEventName × RawPayload)) (p' : RawPayload) :
    ((subscribe k).singleOn = true ∧ (subscribe k).endOn = true) ∧
    ((deliver pageEventStreamSpec
        (processEvents pageEventStreamSpec (subscribe k) events) .close p).ended = true ∧
      (deliver pageEventStreamSpec
        (processEvents pageEventStreamSpec (subscribe k) events) .close p).singleOn = false ∧
      (deliver pageEventStreamSpec
        (processEvents pageEventStreamSpec (subscribe k) events) .close p).endOn = false) ∧
    (processEvents pageEventStreamSpec
        (deliver pageEventStreamSpec
          (processEvents pageEventStreamSpec (subscribe k) events) .close p) more =
      deliver pageEventStreamSpec
        (processEvents pageEventStreamSpec (subscribe k) events) .close p) ∧
    ((cancelSub (processEvents pageEventStreamSpec (subscribe k) events)).singleOn = false ∧
      (cancelSub (processEvents pageEventStreamSpec (subscribe k) events)).endOn = false) ∧
    ((subscribe k').singleOn = true ∧ (subscribe k').endOn = true) ∧
    ((deliver contextEventStreamSpec
        (processEvents contextEventStreamSpec (subscribe k') events') .close p').ended = true ∧
      (deliver contextEventStreamSpec
        (processEvents contextEventStreamSpec (subscribe k') events') .close p').singleOn = false ∧
      (deliver contextEventStreamSpec
        (processEvents contextEventStreamSpec (subscribe k') events') .close p').endOn = false) ∧
    (processEvents contextEventStreamSpec
        (deliver contextEventStreamSpec
          (processEvents contextEventStreamSpec (subscribe k') events') .close p') more' =
      deliver contextEventStreamSpec
        (processEvents contextEventStreamSpec (subscribe k') events') .close p') ∧
    ((cancelSub (processEvents contextEventStreamSpec (subscribe k') events')).singleOn = false ∧
      (cancelSub (processEvents contextEventStreamSpec (subscribe k') events')).endOn = false) := by
  have hpInv := processEvents_inv pageEventStreamSpec (subscribe k) events (subscribe_inv k)
  have hp := close_terminates pageEventStreamSpec
    (processEvents pageEventStreamSpec (subscribe k) events) p hpInv
  have hcInv := processEvents_inv contextEventStreamSpec (subscribe k') events' (subscribe_inv k')
  have hc := close_terminates contextEventStreamSpec
    (processEvents contextEventStreamSpec (subscribe k') events') p' hcInv
  refine ⟨⟨rfl, rfl⟩, ⟨hp.2.2, hp.1, hp.2.1⟩, ?_, ⟨rfl, rfl⟩,
    ⟨rfl, rfl⟩, ⟨hc.2.2, hc.1, hc.2.1⟩, ?_, ⟨rfl, rfl⟩⟩
  · exact processEvents_of_released pageEventStreamSpec _ more hp.1 hp.2.1
  · exact processEvents_of_released contextEventStreamSpec _ more' hc.1 hc.2.1

/-- C5: The connect-style constructor `connectCDP` registers no release
action on the enclosing scope — after its run the scope's finalizer list is
still empty and scope exit never invokes the browser's close — while
`launchScoped` registers close as a finalizer, so scope exit invokes close
exactly once: the two top-level constructors have different release
semantics. -/
theorem connectCDP_registers_no_finalizer (b : BrowserState) (exit : ExitMode) :
    ((connectCDP false) { state := b, finalizers := [] }).1.finalizers = [] ∧
    (runScoped (connectCDP false) b exit).1.closeCalls = b.closeCalls ∧
    ((launchScoped false) { state := b, finalizers := [] }).1.finalizers.length = 1 ∧
    (runScoped (launchScoped false) b exit).1.closeCalls = b.closeCalls + 1 := by
  refine ⟨rfl, ?_, ?_, ?_⟩
  · simp [runScoped, connectCDP, rawConnectOverCDP, closeScope]
  · simp [launchScoped, launch, rawLaunch, addFinalizer]
  · simp [runScoped, launchScoped, launch, rawLaunch, addFinalizer, closeScope,
      ignoreEff, browserCloseEff, rawBrowserClose, mapError, tryPromise]

/-- C6: For every wrapped asynchronous operation on the page wrapper (`goto`,
`title`, `content`, `reload`, `click`), running the dedicated wrapper method
and running the escape hatch `use (fun raw => raw.op ...)` with the same
inputs against the same engine state produce observably equivalent outcomes:
equal success values, or errors with the same classification (reason and
cause). -/
theorem escapeHatch_equivalence (page : RawPageApi) (url selector : String) :
    obsEquiv (pageGoto page url) (pageUse page (fun raw => raw.goto url)) ∧
    obsEquiv (pageTitle page) (pageUse page (fun raw => raw.title)) ∧
    obsEquiv (pageContent page) (pageUse page (fun raw => raw.content)) ∧
    obsEquiv (pageReload page) (pageUse page (fun raw => raw.reload)) ∧
    obsEquiv (pageClick page selector) (pageUse page (fun raw => raw.click selector)) :=
  ⟨obsEquiv_rfl _, obsEquiv_rfl _, obsEquiv_rfl _, obsEquiv_rfl _, obsEquiv_rfl _⟩

/-- C7 counterexample: at concrete raw engine objects, it is false that every
object-returning accessor among `request.frame`, `response.request`,
`dialog.page`, `fileChooser.element`, `download.page` yields a wrapped
handle — `fileChooser.element` yields the raw engine `ElementHandle`. -/
theorem content_accessor_wrapped_cex :
    ¬ ((requestFrameResult { id := 0, frameRef := { id := 1 } }).isWrapped = true ∧
       (responseRequestResult
         { id := 2, requestRef := { id := 0, frameRef := { id := 1 } } }).isWrapped = true ∧
       (dialogPageResult { id := 3, pageRef := some { id := 4 } }).all
         HandleResult.isWrapped = true ∧
       (fileChooserElementResult
         { id := 5, elementRef := { id := 6 }, pageRef := { id := 4 },
           multiple := false }).isWrapped = true ∧
       (downloadPageResult { id := 7, pageRef := { id := 4 } }).isWrapped = true) := by
  decide

/-- C7 (amended): of the object-returning accessors on the content-object
wrappers, `request.frame`, `response.request`, `dialog.page` (when present)
and `download.page` return wrapped handles; `fileChooser.element` instead
returns the raw engine `ElementHandle` unwrapped (the adapter has no wrapper
type for element handles). -/
theorem content_accessors_wrapped_except_element
    (request : RawRequestObj) (response : RawResponseObj) (dialog : RawDialogObj)
    (fileChooser : RawFileChooserObj) (download : RawDownloadObj) :
    (requestFrameResult request).isWrapped = true ∧
    (responseRequestResult response).isWrapped = true ∧
    (dialogPageResult dialog).all HandleResult.isWrapped = true ∧
    (downloadPageResult download).isWrapped = true ∧
    fileChooserElementResult fileChooser = .rawElement fileChooser.elementRef ∧
    (fileChooserElementResult fileChooser).isWrapped = false := by
  refine ⟨rfl, rfl, ?_, rfl, rfl, rfl⟩
  cases h : dialog.pageRef <;>
    simp [dialogPageResult, dialogPage, h, Option.all, HandleResult.isWrapped]

/-- C8 counterexample: with two concurrent subscriptions to the page's
`popup` stream, a single underlying engine event leads to two constructions
of the event-derived wrapped handle — not exactly one per underlying engine
event as claimed. -/
theorem eventStream_single_construction_cex :
    totalConstructedHandles
      (broadcast pageEventStreamSpec
        [subscribe PageEventName.popup, subscribe PageEventName.popup]
        PageEventName.popup (RawPayload.page 7)) = 2 ∧
    ¬ totalConstructedHandles
      (broadcast pageEventStreamSpec
        [subscribe PageEventName.popup, subscribe PageEventName.popup]
        PageEventName.popup (RawPayload.page 7)) = 1 := by
  decide

/-- C8 (amended): the event-derived wrapped handle is constructed exactly
once per occurrence delivered to each subscription, wrapping that single
occurrence: a live subscription to `popup` appends exactly one
`PlaywrightPage.make`-wrapped handle of the raw payload per delivery, and
`n` concurrent fresh subscriptions construct exactly `n` handles for one
underlying engine event (one each). -/
theorem eventStream_one_handle_per_delivery
    (s : Subscription PageEventName) (p : RawPayload) (n : Nat)
    (h1 : s.singleOn = true) (h2 : s.ended = false) (hk : s.eventName = .popup) :
    (deliver pageEventStreamSpec s .popup p).received =
      s.received ++ [MappedEvent.wrappedPage p] ∧
    totalConstructedHandles
      (broadcast pageEventStreamSpec
        (List.replicate n (subscribe PageEventName.popup)) .popup p) = n := by
  constructor
  · simp [deliver, h1, h2, hk, pageEventMappings, pageEventStreamSpec]
  · simp [broadcast, totalConstructedHandles, List.map_replicate, List.sum_replicate,
      deliver, subscribe, pageEventMappings, pageEventStreamSpec, constructedHandles,
      MappedEvent.isConstructedHandle, smul_eq_mul]

/-- Witness for C8 (amended): a fresh `popup` subscription, a concrete raw
page payload and two concurrent subscriptions. -/
theorem eventStream_one_handle_per_delivery_witness :
    (deliver pageEventStreamSpec (subscribe PageEventName.popup) .popup (.page 3)).received =
      (subscribe PageEventName.popup).received ++ [MappedEvent.wrappedPage (.page 3)] ∧
    totalConstructedHandles
      (broadcast pageEventStreamSpec
        (List.replicate 2 (subscribe PageEventName.popup)) .popup (.page 3)) = 2 :=
  eventStream_one_handle_per_delivery (subscribe PageEventName.popup) (.page 3) 2 rfl rfl rfl

/-- C9: `exposeFunction` and `exposeEffect` capture the ambient runtime
exactly once at registration time — the installed engine-side binding is the
closure over that single captured runtime — and every subsequent in-page
invocation runs the provided effect under the captured runtime, whatever the
ambient runtime at call time is; a call whose captured context's
requirements are no longer satisfiable rejects with a cause that `wrapError`
classifies as `Unknown`. -/
theorem exposeFunction_captures_runtime_once {R Args A : Type}
    (ambientReg ambientCall : CapturedRuntime R)
    (effectFn : Args → R → PromiseResult A)
    (staticEffect : R → PromiseResult A) :
    (exposeFunction ambientReg (.resolved ()) effectFn =
      .success { callbackFn := fun args => runPromiseWith ambientReg (effectFn args) }) ∧
    (exposeEffect ambientReg (.resolved ()) staticEffect =
      .success { callbackFn := fun _ => runPromiseWith ambientReg staticEffect }) ∧
    (∀ args : Args,
      invokeExposed { callbackFn := fun a => runPromiseWith ambientReg (effectFn a) }
        ambientCall args = runPromiseWith ambientReg (effectFn args)) ∧
    (∀ args : Args,
      runPromiseWith { context := ambientReg.context, satisfiable := false } (effectFn args) =
        .rejected (.otherError "captured runtime requirements unavailable")) ∧
    (wrapError (.otherError "captured runtime requirements unavailable")).reason = .Unknown :=
  ⟨rfl, rfl, fun _ => rfl, fun _ => rfl, rfl⟩

/-- C10: on both the page and browser-context wrappers, a run of
`eventStream` can never fail on the typed error channel: subscribing
(`Effect.sync` registration), receiving events (transforms applied by
`Stream.map` outside the error channel) and terminating always end the
stream without a `PlaywrightError`. -/
theorem eventStream_error_channel_never
    (k : PageEventName) (events : List (PageEventName × RawPayload))
    (k' : BrowserContextEventName) (events' : List (BrowserContextEventName × RawPayload)) :
    (runPageEventStream k events).isFailure = false ∧
    (∃ l, runPageEventStream k events = .ended l) ∧
    (runContextEventStream k' events').isFailure = false ∧
    (∃ l, runContextEventStream k' events' = .ended l) :=
  ⟨rfl, ⟨_, rfl⟩, rfl, ⟨_, rfl⟩⟩

end EffectPlaywright
